import Mathlib

/-!
Verification development for the Agro_Scan crop-disease-detection HTTP service
(`backend/main.py`). The service is a thin FastAPI wrapper around a pretrained
ViT image classifier: a single `POST /predict` handler that validates the
uploaded file's declared content type, decodes it with PIL, converts it to RGB,
runs the feature extractor and the model, takes the argmax of the logits and
maps the winning index to a label; plus a static `GET /` health endpoint and a
CORS middleware configuration.

The external collaborators (PIL decoding, the HuggingFace feature extractor,
the torch forward pass) are opaque to the application code, so they are
embedded as `Except`-valued fields of an `Env` record; the handler's own
control flow - the content-type gate, the single try/except boundary mapped to
HTTP 500, the argmax/label lookup, the JSON bodies - is translated directly
from the source. An event trace records which external stages a request
actually reached, so that "the model is never invoked" is a statement about
the trace.
-/

set_option autoImplicit false

namespace AgroScan

/-- A decoded PIL image: its color mode string (such as "L", "P", "RGBA" or
"RGB") together with abstract pixel content. -/
structure PILImage where
  mode : String
  data : List Nat
deriving DecidableEq

/-- Embedding of `image.convert("RGB")`: the result is a 3-channel color
image whatever the original mode was; the pixel payload is carried along
abstractly. -/
def convertRGB (img : PILImage) : PILImage :=
  { img with mode := "RGB" }

/-- The batched numeric input produced by the feature extractor
(`return_tensors="pt"`), kept abstract. -/
abbrev Tensor := List Int

/-- The process-wide state loaded at startup plus the opaque external
collaborators used by the handler:
`decode` is `Image.open(io.BytesIO(contents))`, `extract` is
`feature_extractor(images=image, return_tensors="pt")`, `forward` is the
`torch.no_grad()` forward pass yielding the logits row, and `id2label` is
`model.config.id2label` as an index-ordered label table. Each fallible stage
returns `Except String`, the error payload being the Python exception's
string representation `str(e)`. -/
structure Env where
  decode : List Nat → Except String PILImage
  extract : PILImage → Except String Tensor
  forward : Tensor → Except String (List Int)
  id2label : List String

/-- External processing stages a request can reach, in pipeline order. -/
inductive Ev where
  | readFile
  | decodeImage
  | convertImage
  | extractFeatures
  | modelForward
  | labelLookup
deriving DecidableEq

/-- An HTTP outcome of a handler: a 200 JSON object, a raised
`HTTPException` with status code and detail, or an uncaught Python
exception escaping the handler. -/
inductive Response where
  | ok (body : List (String × String))
  | httpError (status : Nat) (detail : String)
  | crash (exc : String)
deriving DecidableEq

/-- Embedding of Python's `s.startswith(p)`: the characters of `p` are a
prefix of the characters of `s`. -/
def strStartsWith (s p : String) : Bool :=
  p.data.isPrefixOf s.data

/-- The uploaded `file` field of the multipart request: its declared MIME
content type (`file.content_type`, absent when the part carries no
Content-Type header) and the outcome of `await file.read()`. -/
structure UploadFile where
  contentType : Option String
  readResult : Except String (List Nat)

/-- Maximum of a nonempty list of scores (`[]` is a don't-care case; the
logits row of a classifier is never empty). -/
def listMax : List Int → Int
  | [] => 0
  | [x] => x
  | x :: y :: xs => max x (listMax (y :: xs))

/-- Embedding of `logits.argmax(-1).item()` on the logits row, with the
numeric library's documented first-occurrence tie-breaking: the index of
the first element attaining the maximum. -/
def argmax : List Int → Nat
  | [] => 0
  | [_] => 0
  | x :: y :: xs => if listMax (y :: xs) ≤ x then 0 else argmax (y :: xs) + 1

/-- The body of the `try:` block of `predict`: read the file, decode,
convert to RGB, extract features, forward pass, argmax, label lookup.
Returns the predicted label or the first stage's `str(e)`, paired with the
trace of stages that were reached. A missing index in the label table is
Python's `KeyError`, whose string representation is the key itself. -/
def pipeline (env : Env) (readResult : Except String (List Nat)) :
    Except String String × List Ev :=
  match readResult with
  | .error e => (.error e, [.readFile])
  | .ok contents =>
    match env.decode contents with
    | .error e => (.error e, [.readFile, .decodeImage])
    | .ok img =>
      match env.extract (convertRGB img) with
      | .error e => (.error e, [.readFile, .decodeImage, .convertImage, .extractFeatures])
      | .ok t =>
        match env.forward t with
        | .error e =>
          (.error e, [.readFile, .decodeImage, .convertImage, .extractFeatures, .modelForward])
        | .ok logits =>
          match env.id2label[argmax logits]? with
          | some lbl =>
            (.ok lbl,
             [.readFile, .decodeImage, .convertImage, .extractFeatures, .modelForward,
              .labelLookup])
          | none =>
            (.error (toString (argmax logits)),
             [.readFile, .decodeImage, .convertImage, .extractFeatures, .modelForward,
              .labelLookup])

/-- Embedding of the `POST /predict` handler. `file.content_type` is
accessed before anything else: when it is `None` the `startswith` attribute
access raises `AttributeError` outside the `try`/`except` boundary, so the
exception escapes the handler uncaught. Otherwise a content type not
starting with `image/` raises HTTP 400 before any byte is read, and the
whole processing pipeline sits inside one `except Exception` boundary that
turns any failure into HTTP 500 with `str(e)` as the detail. -/
def predict (env : Env) (file : UploadFile) : Response × List Ev :=
  match file.contentType with
  | none => (.crash "AttributeError", [])
  | some ct =>
    if ¬ strStartsWith ct "image/" then
      (.httpError 400 "File provided is not an image", [])
    else
      match pipeline env file.readResult with
      | (.ok lbl, tr) => (.ok [("prediction", lbl)], tr)
      | (.error e, tr) => (.httpError 500 e, tr)

/-- The whole process-wide state of the server: the model and feature
extractor loaded once at startup. -/
structure ServerState where
  env : Env

/-- A request to `POST /predict` as the server executes it: the handler
computes its response from the loaded state, which it has no way to
reassign - the embedding returns the state that the next request will see. -/
def handleRequest (s : ServerState) (file : UploadFile) :
    ServerState × (Response × List Ev) :=
  (s, predict s.env file)

/-- Embedding of the `GET /` handler: a constant JSON message, reading
nothing from the server state. -/
def handleRoot (s : ServerState) : ServerState × Response :=
  (s, .ok [("message", "Crop Disease Detection API is running!")])

/-- The arguments given to `CORSMiddleware` in `app.add_middleware`. -/
structure CORSConfig where
  allow_origins : List String
  allow_credentials : Bool
  allow_methods : List String
  allow_headers : List String

/-- The CORS configuration of the service, verbatim from the source. -/
def corsConfig : CORSConfig :=
  { allow_origins := ["http://localhost:3000"]
    allow_credentials := true
    allow_methods := ["*"]
    allow_headers := ["*"] }

/-- CORSMiddleware semantics: an origin is permitted when it is listed in
`allow_origins` (the wildcard entry would permit every origin). -/
def originAllowed (c : CORSConfig) (o : String) : Bool :=
  c.allow_origins.contains "*" || c.allow_origins.contains o

/-- CORSMiddleware semantics: a method is permitted when `allow_methods`
holds the wildcard or lists the method. -/
def methodAllowed (c : CORSConfig) (m : String) : Bool :=
  c.allow_methods.contains "*" || c.allow_methods.contains m

/-- CORSMiddleware semantics: a request header is permitted when
`allow_headers` holds the wildcard or lists the header. -/
def headerAllowed (c : CORSConfig) (h : String) : Bool :=
  c.allow_headers.contains "*" || c.allow_headers.contains h

/-! ### Lemmas about `listMax` and `argmax` -/

theorem listMax_cons (x : Int) (l : List Int) (h : l ≠ []) :
    listMax (x :: l) = max x (listMax l) := by
  cases l with
  | nil => exact absurd rfl h
  | cons y ys => rfl

theorem argmax_lt_length (l : List Int) (h : l ≠ []) : argmax l < l.length := by
  induction l with
  | nil => exact absurd rfl h
  | cons x xs ih =>
    cases xs with
    | nil => simp [argmax]
    | cons y ys =>
      by_cases hle : listMax (y :: ys) ≤ x
      · simp [argmax, hle]
      · have h2 := ih (by simp)
        simp only [argmax, hle, if_false]
        simpa using Nat.succ_lt_succ h2

theorem getElem?_argmax (l : List Int) (h : l ≠ []) :
    l[argmax l]? = some (listMax l) := by
  induction l with
  | nil => exact absurd rfl h
  | cons x xs ih =>
    cases xs with
    | nil => simp [argmax, listMax]
    | cons y ys =>
      by_cases hle : listMax (y :: ys) ≤ x
      · simp [argmax, hle, listMax, max_eq_left hle]
      · have hys : (y :: ys) ≠ [] := by simp
        have hx : x < listMax (y :: ys) := lt_of_not_le hle
        simp only [argmax, hle, if_false, listMax_cons x (y :: ys) hys,
          List.getElem?_cons_succ]
        rw [ih hys, max_eq_right (le_of_lt hx)]

theorem le_listMax (l : List Int) (j : Nat) (v : Int) (h : l[j]? = some v) :
    v ≤ listMax l := by
  induction l generalizing j with
  | nil => simp at h
  | cons x xs ih =>
    cases xs with
    | nil =>
      cases j with
      | zero => simp at h; simp [listMax, h]
      | succ k => simp at h
    | cons y ys =>
      rw [listMax_cons x (y :: ys) (by simp)]
      cases j with
      | zero =>
        simp only [List.getElem?_cons_zero, Option.some.injEq] at h
        exact h ▸ le_max_left _ _
      | succ k =>
        simp only [List.getElem?_cons_succ] at h
        exact le_trans (ih k h) (le_max_right _ _)

theorem lt_listMax_of_lt_argmax (l : List Int) (j : Nat) (v : Int)
    (hj : j < argmax l) (h : l[j]? = some v) : v < listMax l := by
  induction l generalizing j with
  | nil => simp [argmax] at hj
  | cons x xs ih =>
    cases xs with
    | nil => simp [argmax] at hj
    | cons y ys =>
      by_cases hle : listMax (y :: ys) ≤ x
      · simp [argmax, hle] at hj
      · have hx : x < listMax (y :: ys) := lt_of_not_le hle
        rw [listMax_cons x (y :: ys) (by simp), max_eq_right (le_of_lt hx)]
        simp only [argmax, hle, if_false] at hj
        cases j with
        | zero =>
          simp only [List.getElem?_cons_zero, Option.some.injEq] at h
          exact h ▸ hx
        | succ k =>
          simp only [List.getElem?_cons_succ] at h
          exact ih k (Nat.lt_of_succ_lt_succ hj) h

/-! ### Concrete instantiations used by the witnesses -/

/-- An environment whose stages all succeed: decoding yields a grayscale
image, the forward pass yields the logits row `[3, 5, 5]` over a
three-entry label table. -/
def envW : Env :=
  { decode := fun _ => .ok { mode := "L", data := [7] }
    extract := fun _ => .ok []
    forward := fun _ => .ok [3, 5, 5]
    id2label := ["healthy", "rust", "blight"] }

/-- An environment whose decoder always fails, as PIL does on corrupted
bytes. -/
def envE : Env :=
  { decode := fun _ => .error "cannot identify image file"
    extract := fun _ => .ok []
    forward := fun _ => .ok [0]
    id2label := ["healthy"] }

/-- An upload with an image content type and readable bytes. -/
def fileW : UploadFile :=
  { contentType := some "image/png", readResult := .ok [1, 2, 3] }

/-! ### Claim theorems -/

/-- C1: whenever the declared content type of the uploaded file does not
start with `image/`, `POST /predict` answers HTTP 400 with detail
"File provided is not an image" and the trace is empty - no byte is read
and neither the preprocessing transform nor the model is invoked - for
every possible environment. -/
theorem C1_nonimage_rejected_400 (env : Env) (file : UploadFile) (ct : String)
    (hct : file.contentType = some ct) (h : strStartsWith ct "image/" = false) :
    predict env file = (.httpError 400 "File provided is not an image", []) := by
  simp [predict, hct, h]

/-- C1 witness: a `text/plain` upload is rejected with HTTP 400 and an
empty trace. -/
theorem C1_nonimage_rejected_400_witness :
    predict envE { contentType := some "text/plain", readResult := .ok [] } =
      (.httpError 400 "File provided is not an image", []) :=
  C1_nonimage_rejected_400 envE _ "text/plain" rfl rfl

/-- C2: for an `image/`-typed upload, whatever stage of the pipeline fails
first - reading, decoding, preprocessing, inference or label lookup - the
response is HTTP 500 whose detail is exactly that stage's exception string,
with no per-stage differentiation of the status. -/
theorem C2_single_boundary_500 (env : Env) (file : UploadFile) (ct e : String)
    (hct : file.contentType = some ct) (h : strStartsWith ct "image/" = true)
    (hp : (pipeline env file.readResult).1 = .error e) :
    (predict env file).1 = .httpError 500 e := by
  rcases hq : pipeline env file.readResult with ⟨r, tr⟩
  rw [hq] at hp
  simp only at hp
  subst hp
  simp [predict, hct, h, hq]

/-- C2 witness: a decode failure surfaces as HTTP 500 carrying the decoder
error string. -/
theorem C2_single_boundary_500_witness :
    (pipeline envE fileW.readResult).1 = .error "cannot identify image file" ∧
    (predict envE fileW).1 = .httpError 500 "cannot identify image file" :=
  ⟨rfl, C2_single_boundary_500 envE fileW "image/png" _ rfl rfl rfl⟩

/-- C3: an upload whose bytes decode as a valid image of any original color
mode is converted to the 3-channel "RGB" mode before preprocessing, and -
provided the external stages succeed and the logits row matches the label
table's width, as the pretrained model guarantees - `POST /predict` answers
HTTP 200 with a body holding the single field `prediction` whose value is a
label from the model's index-to-label table. -/
theorem C3_valid_image_200_label_in_table (env : Env) (file : UploadFile)
    (ct : String) (contents : List Nat) (img : PILImage) (t : Tensor)
    (logits : List Int)
    (hct : file.contentType = some ct) (h : strStartsWith ct "image/" = true)
    (hread : file.readResult = .ok contents)
    (hdec : env.decode contents = .ok img)
    (hext : env.extract (convertRGB img) = .ok t)
    (hfwd : env.forward t = .ok logits)
    (hne : logits ≠ [])
    (hlen : env.id2label.length = logits.length) :
    (convertRGB img).mode = "RGB" ∧
    ∃ lbl, (predict env file).1 = .ok [("prediction", lbl)] ∧
      lbl ∈ env.id2label := by
  refine ⟨rfl, ?_⟩
  have hidx : argmax logits < env.id2label.length := by
    rw [hlen]; exact argmax_lt_length logits hne
  cases hget : env.id2label[argmax logits]? with
  | none =>
    rw [List.getElem?_eq_none_iff] at hget
    omega
  | some lbl =>
    refine ⟨lbl, ?_, ?_⟩
    · simp [predict, hct, h, pipeline, hread, hdec, hext, hfwd, hget]
    · exact List.getElem?_mem hget

/-- C3 witness: a grayscale image flows through a fully successful
environment and yields HTTP 200 with a label of the table. -/
theorem C3_valid_image_200_label_in_table_witness :
    (convertRGB { mode := "L", data := [7] }).mode = "RGB" ∧
    ∃ lbl, (predict envW fileW).1 = .ok [("prediction", lbl)] ∧
      lbl ∈ envW.id2label :=
  C3_valid_image_200_label_in_table envW fileW "image/png" [1, 2, 3]
    { mode := "L", data := [7] } [] [3, 5, 5] rfl rfl rfl rfl rfl rfl
    (by simp) rfl

/-- C4: a successful prediction returns exactly one label - the body is the
single pair keyed `prediction` - and the label sits in the table at the
argmax index of the logits: that index carries the maximum score, every
index carries at most the maximum, and every index strictly before the
selected one carries strictly less, so ties resolve to the lowest index. -/
theorem C4_argmax_first_index_wins (env : Env) (file : UploadFile)
    (ct : String) (contents : List Nat) (img : PILImage) (t : Tensor)
    (logits : List Int)
    (hct : file.contentType = some ct) (h : strStartsWith ct "image/" = true)
    (hread : file.readResult = .ok contents)
    (hdec : env.decode contents = .ok img)
    (hext : env.extract (convertRGB img) = .ok t)
    (hfwd : env.forward t = .ok logits)
    (hne : logits ≠ [])
    (hlen : env.id2label.length = logits.length) :
    ∃ lbl, (predict env file).1 = .ok [("prediction", lbl)] ∧
      env.id2label[argmax logits]? = some lbl ∧
      logits[argmax logits]? = some (listMax logits) ∧
      (∀ (j : Nat) (v : Int), logits[j]? = some v → v ≤ listMax logits) ∧
      (∀ (j : Nat) (v : Int), j < argmax logits → logits[j]? = some v →
        v < listMax logits) := by
  have hidx : argmax logits < env.id2label.length := by
    rw [hlen]; exact argmax_lt_length logits hne
  cases hget : env.id2label[argmax logits]? with
  | none =>
    rw [List.getElem?_eq_none_iff] at hget
    omega
  | some lbl =>
    refine ⟨lbl, ?_, rfl, getElem?_argmax logits hne, ?_, ?_⟩
    · simp [predict, hct, h, pipeline, hread, hdec, hext, hfwd, hget]
    · intro j v hv
      exact le_listMax logits j v hv
    · intro j v hj hv
      exact lt_listMax_of_lt_argmax logits j v hj hv

/-- C4 witness: on logits `[3, 5, 5]` the tied maximum resolves to index 1,
the first occurrence, and the single returned label is the table's entry
there. -/
theorem C4_argmax_first_index_wins_witness :
    ∃ lbl, (predict envW fileW).1 = .ok [("prediction", lbl)] ∧
      envW.id2label[argmax [(3 : Int), 5, 5]]? = some lbl ∧
      ([(3 : Int), 5, 5])[argmax [(3 : Int), 5, 5]]? =
        some (listMax [(3 : Int), 5, 5]) ∧
      (∀ (j : Nat) (v : Int), ([(3 : Int), 5, 5])[j]? = some v →
        v ≤ listMax [(3 : Int), 5, 5]) ∧
      (∀ (j : Nat) (v : Int), j < argmax [(3 : Int), 5, 5] →
        ([(3 : Int), 5, 5])[j]? = some v →
        v < listMax [(3 : Int), 5, 5]) :=
  C4_argmax_first_index_wins envW fileW "image/png" [1, 2, 3]
    { mode := "L", data := [7] } [] [3, 5, 5] rfl rfl rfl rfl rfl rfl
    (by simp) rfl

/-- C5: the response to `POST /predict` is a deterministic function of the
declared content type and the uploaded bytes alone, the handler hands the
server state back unchanged, and replaying the same request against the
post-request state reproduces the same response - so the same valid image
bytes yield the same predicted label both times. -/
theorem C5_deterministic_stateless (s : ServerState) (f1 f2 : UploadFile)
    (hct : f1.contentType = f2.contentType)
    (hrd : f1.readResult = f2.readResult) :
    handleRequest s f1 = handleRequest s f2 ∧
    (handleRequest s f1).1 = s ∧
    handleRequest (handleRequest s f1).1 f1 = handleRequest s f1 := by
  cases f1 with
  | mk c1 r1 =>
    cases f2 with
    | mk c2 r2 =>
      simp only at hct hrd
      subst hct
      subst hrd
      exact ⟨rfl, rfl, rfl⟩

/-- C5 witness: replaying the witness upload reproduces the response and
leaves the state intact. -/
theorem C5_deterministic_stateless_witness :
    handleRequest ⟨envW⟩ fileW = handleRequest ⟨envW⟩ fileW ∧
    (handleRequest ⟨envW⟩ fileW).1 = ⟨envW⟩ ∧
    handleRequest (handleRequest ⟨envW⟩ fileW).1 fileW =
      handleRequest ⟨envW⟩ fileW :=
  C5_deterministic_stateless ⟨envW⟩ fileW fileW rfl rfl

/-- C6: corrupted or non-image bytes submitted under an `image/` content
type make the decoder fail; since PIL raises with a non-empty message, the
response is HTTP 500 with a non-empty detail string. -/
theorem C6_corrupt_bytes_500_nonempty (env : Env) (file : UploadFile)
    (ct e : String) (contents : List Nat)
    (hct : file.contentType = some ct) (h : strStartsWith ct "image/" = true)
    (hread : file.readResult = .ok contents)
    (hdec : env.decode contents = .error e) (hne : e ≠ "") :
    ∃ d, (predict env file).1 = .httpError 500 d ∧ d ≠ "" := by
  refine ⟨e, ?_, hne⟩
  have hp : (pipeline env file.readResult).1 = .error e := by
    simp [pipeline, hread, hdec]
  rcases hq : pipeline env file.readResult with ⟨r, tr⟩
  rw [hq] at hp
  simp only at hp
  subst hp
  simp [predict, hct, h, hq]

/-- C6 witness: the failing decoder environment produces HTTP 500 with the
non-empty PIL message. -/
theorem C6_corrupt_bytes_500_nonempty_witness :
    ∃ d, (predict envE fileW).1 = .httpError 500 d ∧ d ≠ "" :=
  C6_corrupt_bytes_500_nonempty envE fileW "image/png"
    "cannot identify image file" [1, 2, 3] rfl rfl rfl rfl (by simp)

/-- C7: `GET /` always returns HTTP 200 with the fixed body message
"Crop Disease Detection API is running!", for every server state, reading
nothing from it, changing nothing in it, and never failing. -/
theorem C7_root_constant (s : ServerState) :
    handleRoot s = (s, .ok [("message", "Crop Disease Detection API is running!")]) :=
  rfl

/-- C8: handling `POST /predict` returns the server state unchanged on
every path - success, HTTP error or crash alike - and its only output
beyond that state is the response computed from the startup environment. -/
theorem C8_no_mutation_no_side_effect (s : ServerState) (file : UploadFile) :
    (handleRequest s file).1 = s ∧
    (handleRequest s file).2 = predict s.env file :=
  ⟨rfl, rfl⟩

/-- C9: the CORS configuration permits exactly the origin
`http://localhost:3000` - an origin is allowed precisely when it equals
that string - and for it allows credentials, every HTTP method and every
header. -/
theorem C9_cors_single_origin :
    (∀ o, originAllowed corsConfig o = true ↔ o = "http://localhost:3000") ∧
    corsConfig.allow_credentials = true ∧
    (∀ m, methodAllowed corsConfig m = true) ∧
    (∀ hd, headerAllowed corsConfig hd = true) := by
  refine ⟨?_, rfl, ?_, ?_⟩
  · intro o
    simp [originAllowed, corsConfig]
  · intro m
    simp [methodAllowed, corsConfig]
  · intro hd
    simp [headerAllowed, corsConfig]

/-- C10: when the uploaded file declares no content type at all, the
`startswith` attribute access on `None` raises `AttributeError` before the
try/except boundary is entered, so the request crashes and produces neither
the specified 400 response nor the specified 500 response, whatever the
environment. -/
theorem C10_missing_content_type_crashes (env : Env) (file : UploadFile)
    (h : file.contentType = none) :
    predict env file = (.crash "AttributeError", []) ∧
    (∀ d, (predict env file).1 ≠ .httpError 400 d) ∧
    (∀ d, (predict env file).1 ≠ .httpError 500 d) := by
  refine ⟨by simp [predict, h], ?_, ?_⟩ <;>
    intro d hd <;> simp [predict, h] at hd

/-- C10 witness: an upload without a declared content type crashes the
handler instead of yielding an HTTP error response. -/
theorem C10_missing_content_type_crashes_witness :
    predict envW { contentType := none, readResult := .ok [] } =
      (.crash "AttributeError", []) ∧
    (∀ d, (predict envW { contentType := none, readResult := .ok [] }).1 ≠
      .httpError 400 d) ∧
    (∀ d, (predict envW { contentType := none, readResult := .ok [] }).1 ≠
      .httpError 500 d) :=
  C10_missing_content_type_crashes envW _ rfl

end AgroScan
